import Mathlib

/-!
# lnc: payment executor, invoice watcher and routing-fee estimator

A shallow embedding of `ln.go` and `lnd.go`.

* Go `error` values are modelled by `GoError`; a nil error is `none`.
  Values of type `*errors.errorString` carry the place where they were
  allocated, because Go compares them by pointer.
* A websocket connection is modelled by the outcome of dialing, the outcome of
  the initial send, and the list of outcomes of the successive
  `websocket.JSON.Receive` calls.  A receive on an exhausted list blocks
  forever, which is the result `none`.
* `time.Sleep` has no effect on the values computed and is left out.
* `uint64` values are natural numbers; every arithmetic operator of the
  source is reduced modulo `2^64`.
* The node is modelled by its answers to the two HTTP requests of the
  estimator, as functions of the whole list of requests sent so far; the
  estimator returns that list next to its results.
-/

namespace lnc

/-! ## Go errors -/

/-- Identity of an `*errors.errorString`: either the package-level variable it
was stored in at program start, or the source line of the call that allocated
it while a function was running. -/
inductive Addr where
  | global (name : String)
  | line (n : Nat)
  deriving DecidableEq, Repr

/-- The dynamic values of Go's `error` interface that occur in the package. -/
inductive GoError where
  /-- the result of `errors.New` or of `fmt.Errorf` without a wrapping verb -/
  | errorString (addr : Addr) (s : String)
  /-- the type `hex.InvalidByteError` -/
  | InvalidByteError (b : Nat)
  /-- the value `*errors.joinError` wrapping one error -/
  | joinError1 (e : GoError)
  /-- the value `*errors.joinError` wrapping two errors -/
  | joinError2 (a b : GoError)
  /-- an error value of another dynamic type, made by a library -/
  | other (description : String)
  deriving DecidableEq, Repr

/-- The variable `PaymentHashExists` of `ln.go`. -/
def PaymentHashExists : GoError :=
  .errorString (.global "lnc.PaymentHashExists") "invoice with that payment hash already exists"

/-- The variable `PaymentFailed` of `ln.go`. -/
def PaymentFailed : GoError :=
  .errorString (.global "lnc.PaymentFailed") "payment failed"

end lnc

namespace io

/-- The variable `io.EOF`. -/
def EOF : lnc.GoError := .errorString (.global "io.EOF") "EOF"

end io

namespace errors

open lnc

/-- The call `errors.New(text)` evaluated at source line `site` of `lnd.go`:
every call returns a pointer of its own. -/
def New (site : Nat) (text : String) : GoError := .errorString (.line site) text

/-- The call `errors.Join(a, b)`: nil arguments are dropped, and the result is
nil when nothing is left. -/
def Join : Option GoError → Option GoError → Option GoError
  | none, none => none
  | some a, none => some (.joinError1 a)
  | none, some b => some (.joinError1 b)
  | some a, some b => some (.joinError2 a b)

/-- The call `errors.Is(err, target)` for a non-nil `err`: equality, or `Is`
of one of the errors a join wraps. -/
def Is : GoError → GoError → Bool
  | .joinError1 e, target => (GoError.joinError1 e == target) || Is e target
  | .joinError2 a b, target => (GoError.joinError2 a b == target) || Is a target || Is b target
  | err, target => err == target

end errors

namespace fmt

open lnc

/-- The call `fmt.Errorf(format, args...)` at source line `site`, for a format
without a wrapping verb; `text` is the formatted message. -/
def Errorf (site : Nat) (text : String) : GoError := .errorString (.line site) text

end fmt

/-! ## Package `encoding/hex` -/

namespace hex

open lnc

/-- The variable `hex.ErrLength`. -/
def ErrLength : GoError :=
  .errorString (.global "hex.ErrLength") "encoding/hex: odd length hex string"

/-- The bytes of a Go string: its UTF-8 encoding. -/
def bytes (s : String) : List Nat :=
  s.toList.flatMap (fun c => (String.utf8EncodeChar c).map UInt8.toNat)

/-- The table `hextable`. -/
def hextable : List Char :=
  ['0', '1', '2', '3', '4', '5', '6', '7', '8', '9', 'a', 'b', 'c', 'd', 'e', 'f']

/-- The table `reverseHexTable`: the value of a hexadecimal digit, and `0xff`
for every other byte. -/
def reverseHexTable (c : Nat) : Nat :=
  if 48 ≤ c ∧ c ≤ 57 then c - 48
  else if 97 ≤ c ∧ c ≤ 102 then c - 97 + 10
  else if 65 ≤ c ∧ c ≤ 70 then c - 65 + 10
  else 0xff

/-- The function `hex.Decode` on the source bytes: the bytes decoded before the
first error, and the error. -/
def Decode : List Nat → List Nat × Option GoError
  | [] => ([], none)
  | [p] =>
    if reverseHexTable p > 0x0f then ([], some (.InvalidByteError p))
    else ([], some ErrLength)
  | p :: q :: rest =>
    if reverseHexTable p > 0x0f then ([], some (.InvalidByteError p))
    else if reverseHexTable q > 0x0f then ([], some (.InvalidByteError q))
    else
      let r := Decode rest
      ((reverseHexTable p * 16 + reverseHexTable q) :: r.1, r.2)

/-- The function `hex.DecodeString`. -/
def DecodeString (s : String) : List Nat × Option GoError :=
  Decode (bytes s)

/-- The function `hex.EncodeToString`: two lower-case digits for each byte. -/
def EncodeToString (src : List Nat) : String :=
  String.mk (src.flatMap (fun v => [hextable.getD (v / 16) '0', hextable.getD (v % 16) '0']))

end hex

namespace lnc

/-! ## Websocket streams -/

/-- The outcome of one `websocket.JSON.Receive(ws, &message)`: the value of
`message` after the call (it is zero before the call) and the error returned. -/
structure Received (M : Type) where
  message : M
  err : Option GoError
  deriving DecidableEq, Repr

/-- A websocket connection: the error of `websocket.DialConfig`, the error of
the `websocket.JSON.Send` that follows, and the outcomes of the receives. -/
structure Conn (M : Type) where
  dialErr : Option GoError
  sendErr : Option GoError
  frames : List (Received M)

/-! ## PayInvoice -/

/-- The message struct of the receive loop of `PayInvoice`. -/
structure PayMessage where
  Status : String
  PreImage : String
  FailureReason : String
  ErrorMessage : String
  deriving DecidableEq, Repr

/-- The receive loop of `PayInvoice` (lnd.go, lines 246 to 279).  The result is
the pair returned and the receive outcomes not consumed, or `none` when the
loop waits for a receive that never comes. -/
def PayInvoice.loop :
    List (Received PayMessage) →
      Option ((Option (List Nat) × Option GoError) × List (Received PayMessage))
  | [] => none
  | r :: rest =>
    if r.err ≠ none ∧ r.err ≠ some io.EOF then
      some ((none, r.err), rest)
    else if r.message.ErrorMessage ≠ "" then
      some ((none, some (fmt.Errorf 262 ("v2/router/send response: " ++ r.message.ErrorMessage))),
        rest)
    else if r.message.Status = "FAILED" then
      some ((none, some (errors.New 267 "payment failed")), rest)
    else if r.message.Status = "UNKNOWN" ∨ r.message.Status = "IN_FLIGHT"
        ∨ r.message.Status = "" then
      if r.err = some io.EOF then some ((none, r.err), rest)
      else PayInvoice.loop rest
    else if r.message.Status = "SUCCEEDED" then
      let d := hex.DecodeString r.message.PreImage
      some ((some d.1, d.2), rest)
    else
      some ((none, some (fmt.Errorf 273
        ("v2/router/send unhandled status: " ++ r.message.Status))), rest)

/-- The method `Lnd.PayInvoice` on a connection. -/
def PayInvoice (ws : Conn PayMessage) :
    Option ((Option (List Nat) × Option GoError) × List (Received PayMessage)) :=
  match ws.dialErr with
  | some err => some ((none, some err), ws.frames)
  | none =>
    match ws.sendErr with
    | some err => some ((none, some err), ws.frames)
    | none => PayInvoice.loop ws.frames

/-! ## WatchInvoice -/

/-- The message struct of the receive loop of `WatchInvoice`. -/
structure WatchMessage where
  State : String
  AmtPaidMsat : Nat
  ErrorMessage : String
  deriving DecidableEq, Repr

/-- The receive loop of `WatchInvoice` (lnd.go, lines 131 to 163). -/
def WatchInvoice.loop :
    List (Received WatchMessage) →
      Option ((Nat × Option GoError) × List (Received WatchMessage))
  | [] => none
  | r :: rest =>
    if r.err ≠ none ∧ r.err ≠ some io.EOF then
      some ((0, r.err), rest)
    else if r.message.ErrorMessage ≠ "" then
      some ((0, some (fmt.Errorf 146
        ("v2/invoices/subscribe response: " ++ r.message.ErrorMessage))), rest)
    else if r.message.State = "OPEN" then
      if r.err = some io.EOF then some ((0, r.err), rest)
      else WatchInvoice.loop rest
    else if r.message.State = "ACCEPTED" then
      some ((r.message.AmtPaidMsat, none), rest)
    else if r.message.State = "SETTLED" ∨ r.message.State = "CANCELED" then
      some ((r.message.AmtPaidMsat,
        some (fmt.Errorf 155 ("invoice " ++ r.message.State ++ " before payment"))), rest)
    else
      some ((0, some (fmt.Errorf 157
        ("v2/invoices/subscribe unhandled state: " ++ r.message.State))), rest)

/-- The method `Lnd.WatchInvoice` on a connection. -/
def WatchInvoice (ws : Conn WatchMessage) :
    Option ((Nat × Option GoError) × List (Received WatchMessage)) :=
  match ws.dialErr with
  | some err => some ((0, some err), ws.frames)
  | none =>
    match ws.sendErr with
    | some err => some ((0, some err), ws.frames)
    | none => WatchInvoice.loop ws.frames

/-! ## EstimateRoutingFee -/

/-- The number of values of a `uint64`. -/
def U64 : Nat := 18446744073709551616

/-- The constant `18446744073709551615` the source uses for "no estimate". -/
def MaxUint64 : Nat := 18446744073709551615

/-- The operator `-` on `uint64`. -/
def sub64 (a b : Nat) : Nat := (a + (U64 - b % U64)) % U64

/-- The struct `HopHint` of `ln.go`. -/
structure HopHint where
  NodeId : String
  ChanId : Nat
  FeeBaseMsat : Nat
  FeePPM : Nat
  CltvExpiryDelta : Nat
  deriving DecidableEq, Repr

/-- The struct `RouteHint` of `ln.go`. -/
structure RouteHint where
  HopHints : List HopHint
  deriving DecidableEq, Repr

/-- The value type of the `Features` map of `DecodedInvoice`. -/
structure Feature where
  Name : String
  IsRequired : Bool
  IsKnown : Bool
  deriving DecidableEq, Repr

/-- The struct `DecodedInvoice` of `ln.go`. -/
structure DecodedInvoice where
  PaymentHash : String
  Timestamp : Nat
  Expiry : Nat
  Description : String
  DescriptionHash : String
  NumMsat : Nat
  CltvExpiry : Nat
  Features : List (String × Feature)
  Destination : String
  RouteHints : List RouteHint
  deriving DecidableEq, Repr

/-- A request the client sets out to send to the node. -/
inductive Request where
  /-- `GET v2/chainkit/bestblock` -/
  | bestblock
  /-- `POST v2/router/route/estimatefee` with the fields `dest` and `amt_sat` -/
  | estimatefee (dest : List Nat) (amt_sat : Nat)
  deriving DecidableEq, Repr

/-- What the client observes of one HTTP exchange. -/
inductive HttpResult (α : Type) where
  /-- `http.NewRequest` or `lnd.Client.Do` returned an error -/
  | doErr (err : GoError)
  /-- the status is not 200: the body read by `io.ReadAll` and its error -/
  | notOK (body : String) (readErr : Option GoError)
  /-- the status is 200: the struct after `dec.Decode` and the error of the call -/
  | ok (v : α) (decodeErr : Option GoError)

/-- The node behind `Lnd`.  Each field answers one kind of request; its
argument is the list of all requests sent so far, the current one last, so an
answer may depend on everything the client did before. -/
structure Lnd where
  bestblock : List Request → HttpResult Nat
  estimatefee : List Request → HttpResult (Nat × Nat)

/-- The method `Lnd.getBlockHeight`; `log` is the list of requests sent so
far, and the second component of the result is the list afterwards. -/
def getBlockHeight (lnd : Lnd) (log : List Request) : (Nat × Option GoError) × List Request :=
  let log := log ++ [Request.bestblock]
  match lnd.bestblock log with
  | .doErr err => ((0, some err), log)
  | .notOK _ (some err) => ((0, some err), log)
  | .notOK body none => ((0, some (fmt.Errorf 436 ("v2/chainkit/bestblock: " ++ body))), log)
  | .ok v decodeErr =>
    if decodeErr ≠ none ∧ decodeErr ≠ some io.EOF then ((0, decodeErr), log)
    else ((v, none), log)

/-- The method `Lnd.estimateRoutingFee`.  A destination that is not hexadecimal
fails before any request is sent; `json.Marshal` of a byte slice and a
`uint64` cannot fail and is left out. -/
def estimateRoutingFee (lnd : Lnd) (log : List Request) (destination : String)
    (amount_msat : Nat) : (Nat × Nat × Option GoError) × List Request :=
  match hex.DecodeString destination with
  | (_, some err) => ((MaxUint64, MaxUint64, some err), log)
  | (destination_bytes, none) =>
    let log := log ++ [Request.estimatefee destination_bytes ((amount_msat + 999) % U64 / 1000)]
    match lnd.estimatefee log with
    | .doErr err => ((MaxUint64, MaxUint64, some err), log)
    | .notOK _ (some err) => ((MaxUint64, MaxUint64, some err), log)
    | .notOK body none =>
      ((MaxUint64, MaxUint64,
        some (fmt.Errorf 399 ("v2/router/route/estimatefee  response: " ++ body))), log)
    | .ok estimate decodeErr =>
      if decodeErr ≠ none ∧ decodeErr ≠ some io.EOF then
        ((MaxUint64, MaxUint64, decodeErr), log)
      else ((estimate.1, estimate.2, none), log)

/-- The inner loop of `EstimateRoutingFee` over the hops of one route hint
(lnd.go, lines 346 to 349), on the pair `(f, c)`. -/
def EstimateRoutingFee.hops (amount_msat : Nat) : List HopHint → Nat × Nat → Nat × Nat
  | [], fc => fc
  | hop :: rest, (f, c) =>
    EstimateRoutingFee.hops amount_msat rest
      ((f + (hop.FeeBaseMsat + (amount_msat * hop.FeePPM) % U64 / 1000000) % U64) % U64,
        (c + hop.CltvExpiryDelta) % U64)

/-- The variables the loop over the route hints updates. -/
structure Running where
  fee_msat : Nat
  cltv_delta : Nat
  errs : Option GoError
  log : List Request

/-- The loop of `EstimateRoutingFee` over the route hints (lnd.go, lines 335 to
354). -/
def EstimateRoutingFee.hints (lnd : Lnd) (height amount_msat : Nat) :
    List RouteHint → Running → Running
  | [], s => s
  | route_hint :: rest, s =>
    match route_hint.HopHints with
    | [] =>
      EstimateRoutingFee.hints lnd height amount_msat rest
        { s with errs := errors.Join s.errs (some (errors.New 337 "zero hops in route hint")) }
    | hop0 :: _ =>
      match estimateRoutingFee lnd s.log hop0.NodeId amount_msat with
      | ((_, _, some e), log) =>
        EstimateRoutingFee.hints lnd height amount_msat rest
          { s with errs := errors.Join s.errs (some e), log := log }
      | ((f, c, none), log) =>
        let fc := EstimateRoutingFee.hops amount_msat route_hint.HopHints (f, sub64 c height)
        if fc.1 < s.fee_msat then
          EstimateRoutingFee.hints lnd height amount_msat rest
            { fee_msat := fc.1, cltv_delta := fc.2, errs := errors.Join s.errs none, log := log }
        else
          EstimateRoutingFee.hints lnd height amount_msat rest
            { s with errs := errors.Join s.errs none, log := log }

/-- The part of `EstimateRoutingFee` after the amount is resolved (lnd.go,
lines 329 to 359). -/
def EstimateRoutingFee.body (lnd : Lnd) (invoice_params : DecodedInvoice) (amount_msat : Nat)
    (log : List Request) : (Nat × Nat × Option GoError) × List Request :=
  match getBlockHeight lnd log with
  | ((_, some err), log) => ((0, 0, some err), log)
  | ((height, none), log) =>
    match estimateRoutingFee lnd log invoice_params.Destination amount_msat with
    | ((fee_msat, cltv, errs), log) =>
      let s := EstimateRoutingFee.hints lnd height amount_msat invoice_params.RouteHints
        { fee_msat := fee_msat, cltv_delta := sub64 cltv height, errs := errs, log := log }
      if s.fee_msat = 18446744073709551615 ∨ s.cltv_delta = 18446744073709551615 then
        ((0, 0, errors.Join s.errs (some (errors.New 356 "could not find route"))), s.log)
      else
        ((s.fee_msat, (s.cltv_delta + invoice_params.CltvExpiry) % U64, none), s.log)

/-- The method `Lnd.EstimateRoutingFee`: the triple returned and the list of
requests sent, given the list `log` of the requests sent before the call. -/
def EstimateRoutingFee (lnd : Lnd) (invoice_params : DecodedInvoice) (amount_msat : Nat)
    (log : List Request) : (Nat × Nat × Option GoError) × List Request :=
  if invoice_params.NumMsat = 0 ∧ amount_msat = 0 then
    ((0, 0, some (errors.New 324 "need a non-zero amount to estimate fee")), log)
  else if invoice_params.NumMsat > 0 then
    EstimateRoutingFee.body lnd invoice_params invoice_params.NumMsat log
  else
    EstimateRoutingFee.body lnd invoice_params amount_msat log

/-! ## The estimator as the specification words it -/

/-- The amount the specification resolves: the amount of the invoice when it
has one, the amount of the caller otherwise. -/
def resolvedAmount (invoice : DecodedInvoice) (amount_msat : Nat) : Nat :=
  if invoice.NumMsat > 0 then invoice.NumMsat else amount_msat

/-- The `uint64` an integer is stored as: its residue modulo `2^64`. -/
def wrap64 (z : Int) : Nat := (z % 18446744073709551616).toNat

/-- The fee one hop adds for an amount, over the integers:
`FeeBaseMsat + floor(amount * FeePPM / 1000000)`. -/
def hopFeeExact (amount : Nat) (hop : HopHint) : Nat :=
  hop.FeeBaseMsat + amount * hop.FeePPM / 1000000

/-- The fee one hop adds for an amount when the product is a `uint64`. -/
def hopFee (amount : Nat) (hop : HopHint) : Nat :=
  hop.FeeBaseMsat + wrap64 ((amount : Int) * hop.FeePPM) / 1000000

/-- The candidate of a route hint whose first-hop query answered
`(fee, lock)`, as a pair of its total fee and its relative delta, with every
quantity a `uint64`: the fee of the query plus the fees of all hops, and
`lock - height` plus the deltas of all hops. -/
def hintCandidate (amount height fee lock : Nat) (hops : List HopHint) : Nat × Nat :=
  (wrap64 ((fee : Int) + ((hops.map (hopFee amount)).sum : Nat)),
    wrap64 ((lock : Int) - height + ((hops.map HopHint.CltvExpiryDelta).sum : Nat)))

/-- The direct candidate for the answer `(fee, lock)` of the query for the
destination: the fee, and `lock - height` as a `uint64`. -/
def directCandidate (height fee lock : Nat) : Nat × Nat :=
  (fee, wrap64 ((lock : Int) - height))

/-- The candidate of a route hint over the integers, nothing wrapping. -/
def hintCandidateExact (amount height fee lock : Nat) (hops : List HopHint) : Nat × Int :=
  (fee + (hops.map (hopFeeExact amount)).sum,
    (lock : Int) - height + ((hops.map HopHint.CltvExpiryDelta).sum : Nat))

/-- The direct candidate over the integers. -/
def directCandidateExact (height fee lock : Nat) : Nat × Int :=
  (fee, (lock : Int) - height)

/-- The candidates of the route hints, in the order of the invoice: one for
every hint with at least one hop whose first-hop query succeeded, built by
`hint` from the answer of that query and the hops.  The queries are sent in
that order, after the requests of `log`. -/
def hintCandidatesWith {γ : Type} (hint : Nat → Nat → List HopHint → γ) (lnd : Lnd)
    (amount : Nat) : List RouteHint → List Request → List γ
  | [], _ => []
  | route_hint :: rest, log =>
    match route_hint.HopHints with
    | [] => hintCandidatesWith hint lnd amount rest log
    | hop0 :: _ =>
      match estimateRoutingFee lnd log hop0.NodeId amount with
      | ((_, _, some _), log) => hintCandidatesWith hint lnd amount rest log
      | ((fee, lock, none), log) =>
        hint fee lock route_hint.HopHints :: hintCandidatesWith hint lnd amount rest log

/-- All candidates: the direct one first, when the query for the destination
succeeded, then those of the route hints. -/
def candidatesWith {γ : Type} (direct : Nat → Nat → γ) (hint : Nat → Nat → List HopHint → γ)
    (lnd : Lnd) (invoice : DecodedInvoice) (amount : Nat) (log : List Request) : List γ :=
  match estimateRoutingFee lnd log invoice.Destination amount with
  | ((_, _, some _), log) => hintCandidatesWith hint lnd amount invoice.RouteHints log
  | ((fee, lock, none), log) =>
    direct fee lock :: hintCandidatesWith hint lnd amount invoice.RouteHints log

/-- The candidates with `uint64` arithmetic, each a pair of its total fee and
its relative delta; `log` is the list of requests sent before the first query. -/
def candidates (lnd : Lnd) (invoice : DecodedInvoice) (height amount : Nat)
    (log : List Request) : List (Nat × Nat) :=
  candidatesWith (directCandidate height) (hintCandidate amount height) lnd invoice amount log

/-- The candidates over the integers. -/
def candidatesExact (lnd : Lnd) (invoice : DecodedInvoice) (height amount : Nat)
    (log : List Request) : List (Nat × Int) :=
  candidatesWith (directCandidateExact height) (hintCandidateExact amount height) lnd invoice
    amount log

/-- The chosen candidate: the earliest one whose total fee is at most the
total fee of every candidate. -/
def chosen {δ : Type} (cs : List (Nat × δ)) : Option (Nat × δ) :=
  cs.find? (fun c => decide (∀ d ∈ cs, c.1 ≤ d.1))

/-- The update of the running minimum by one candidate (lnd.go, lines 350 to
353). -/
def pick (best c : Nat × Nat) : Nat × Nat := if c.1 < best.1 then c else best

/-- The variables of `EstimateRoutingFee` after the loop over the route hints,
for a block height `height` and the requests `log` sent before the query for
the destination. -/
def running (lnd : Lnd) (invoice : DecodedInvoice) (height amount : Nat)
    (log : List Request) : Running :=
  EstimateRoutingFee.hints lnd height amount invoice.RouteHints
    { fee_msat := (estimateRoutingFee lnd log invoice.Destination amount).1.1
      cltv_delta := sub64 (estimateRoutingFee lnd log invoice.Destination amount).1.2.1 height
      errs := (estimateRoutingFee lnd log invoice.Destination amount).1.2.2
      log := (estimateRoutingFee lnd log invoice.Destination amount).2 }

/-- The requests of `new` are block-height queries or fee queries for the
amount `amount` in satoshis, rounded up as a `uint64`. -/
def QueriesUse (amount : Nat) (new : List Request) : Prop :=
  ∀ r ∈ new, r = Request.bestblock
    ∨ ∃ dest, r = Request.estimatefee dest ((amount + 999) % U64 / 1000)

/-! ## Concrete inputs of the estimator -/

/-- The public key of a destination node, in hexadecimal. -/
def nodeA : String := "03864ef025fde8fb587d989186ce6a4a186895ee44a926bfc370e2c366597a3f8f"

/-- The public key of the first node of a route hint, in hexadecimal. -/
def nodeB : String := "02eec7245d6b7d2ccb30380bfbe2a3648cd7a942653f5aa340edcea1f283686619"

/-- A hop through `nodeB` with the given policy. -/
def hopOf (base ppm delta : Nat) : HopHint :=
  { NodeId := nodeB, ChanId := 1, FeeBaseMsat := base, FeePPM := ppm, CltvExpiryDelta := delta }

/-- An invoice for `nodeA` with the given amount, final expiry and route hints. -/
def invoiceOf (numMsat cltvExpiry : Nat) (hints : List RouteHint) : DecodedInvoice :=
  { PaymentHash := "", Timestamp := 0, Expiry := 3600, Description := "", DescriptionHash := ""
    NumMsat := numMsat, CltvExpiry := cltvExpiry, Features := [], Destination := nodeA
    RouteHints := hints }

/-- A node at block height `height` that answers the fee query for `nodeA` by
`direct` and every other fee query by `hint`. -/
def lndOf (height : Nat) (direct hint : HttpResult (Nat × Nat)) : Lnd :=
  { bestblock := fun _ => .ok height none
    estimatefee := fun log =>
      match log.getLast? with
      | some (.estimatefee dest _) => if dest = (hex.DecodeString nodeA).1 then direct else hint
      | _ => hint }

/-! ## Shapes of received messages named by the claims -/

/-- A waiting update of `PayInvoice`: status `UNKNOWN`, `IN_FLIGHT` or empty,
an empty error message and no receive error. -/
def PayWaiting (r : Received PayMessage) : Prop :=
  r.err = none ∧ r.message.ErrorMessage = ""
    ∧ (r.message.Status = "UNKNOWN" ∨ r.message.Status = "IN_FLIGHT" ∨ r.message.Status = "")

/-- A notification of `WatchInvoice` with state `OPEN`, an empty error message
and no receive error. -/
def WatchOpen (r : Received WatchMessage) : Prop :=
  r.err = none ∧ r.message.ErrorMessage = "" ∧ r.message.State = "OPEN"

/-- A receive of `PayInvoice` that reports the end of the stream: the error
is `io.EOF` and the message is left at its zero value. -/
def payClosed : Received PayMessage :=
  { message := { Status := "", PreImage := "", FailureReason := "", ErrorMessage := "" }
    err := some io.EOF }

/-- A receive of `WatchInvoice` that reports the end of the stream. -/
def watchClosed : Received WatchMessage :=
  { message := { State := "", AmtPaidMsat := 0, ErrorMessage := "" }
    err := some io.EOF }

/-- An update of `PayInvoice` with the given status and preimage, an empty
error message and no receive error. -/
def payUpdate (status preimage : String) : Received PayMessage :=
  { message := { Status := status, PreImage := preimage, FailureReason := "",
                 ErrorMessage := "" }
    err := none }

/-- A notification of `WatchInvoice` with the given state and paid amount, an
empty error message and no receive error. -/
def watchUpdate (state : String) (amt : Nat) : Received WatchMessage :=
  { message := { State := state, AmtPaidMsat := amt, ErrorMessage := "" }
    err := none }

/-- A connection whose dial and send succeeded. -/
def connected {M : Type} (frames : List (Received M)) : Conn M :=
  { dialErr := none, sendErr := none, frames := frames }

/-- The byte of the lower-case hexadecimal digit of value `n`. -/
def digitByte (n : Nat) : Nat := if n < 10 then 48 + n else 87 + n

/-! ## Lemmas on the hexadecimal codec -/

theorem hextable_bytes : ∀ n, n < 16 →
    (String.utf8EncodeChar (hex.hextable.getD n '0')).map UInt8.toNat = [digitByte n]
      ∧ hex.reverseHexTable (digitByte n) = n := by
  decide

theorem bytes_cons (c : Char) (l : List Char) :
    hex.bytes (String.mk (c :: l))
      = (String.utf8EncodeChar c).map UInt8.toNat ++ hex.bytes (String.mk l) := by
  simp [hex.bytes, String.toList]

theorem EncodeToString_cons (v : Nat) (p : List Nat) (hv : v < 256) :
    hex.bytes (hex.EncodeToString (v :: p))
      = digitByte (v / 16) :: digitByte (v % 16) :: hex.bytes (hex.EncodeToString p) := by
  have h1 := (hextable_bytes (v / 16) (by omega)).1
  have h2 := (hextable_bytes (v % 16) (by omega)).1
  simp only [hex.EncodeToString, List.flatMap_cons, List.cons_append, List.nil_append]
  rw [bytes_cons, bytes_cons, h1, h2]
  rfl

/-- Decoding the encoding of a byte string gives the byte string back. -/
theorem DecodeString_EncodeToString (p : List Nat) (hp : ∀ b ∈ p, b < 256) :
    hex.DecodeString (hex.EncodeToString p) = (p, none) := by
  unfold hex.DecodeString
  induction p with
  | nil => rfl
  | cons v p ih =>
    have hv : v < 256 := hp v (List.mem_cons_self _ _)
    have ih2 := ih (fun b hb => hp b (List.mem_cons_of_mem _ hb))
    have h1 := (hextable_bytes (v / 16) (by omega)).2
    have h2 := (hextable_bytes (v % 16) (by omega)).2
    rw [EncodeToString_cons v p hv]
    have e1 : ¬ v / 16 > 0x0f := by omega
    have e2 : ¬ v % 16 > 0x0f := by omega
    have e3 : v / 16 * 16 + v % 16 = v := by omega
    simp only [hex.Decode, ih2, h1, h2, if_neg e1, if_neg e2, e3]

/-! ## The receive loops -/

theorem PayInvoice.loop_waiting (pre rest : List (Received PayMessage))
    (h : ∀ r ∈ pre, PayWaiting r) :
    PayInvoice.loop (pre ++ rest) = PayInvoice.loop rest := by
  induction pre with
  | nil => rfl
  | cons r pre ih =>
    obtain ⟨he, hm, hs⟩ := h r (List.mem_cons_self _ _)
    have ih2 := ih (fun x hx => h x (List.mem_cons_of_mem _ hx))
    have hf : r.message.Status ≠ "FAILED" := by
      rcases hs with hs | hs | hs <;> rw [hs] <;> decide
    simp only [List.cons_append, PayInvoice.loop, he, hm]
    simp [hf, hs, ih2]

theorem WatchInvoice.loop_open (pre rest : List (Received WatchMessage))
    (h : ∀ r ∈ pre, WatchOpen r) :
    WatchInvoice.loop (pre ++ rest) = WatchInvoice.loop rest := by
  induction pre with
  | nil => rfl
  | cons r pre ih =>
    obtain ⟨he, hm, hs⟩ := h r (List.mem_cons_self _ _)
    have ih2 := ih (fun x hx => h x (List.mem_cons_of_mem _ hx))
    simp only [List.cons_append, WatchInvoice.loop, he, hm, hs]
    simp [ih2]

/-- C1: after zero or more waiting updates, every update with status `FAILED`
and an empty error message, whatever its other fields and whether the receive
returned no error or `io.EOF`, makes `PayInvoice` return no preimage and the
error allocated by `errors.New("payment failed")` on line 267; that error has
the text of `PaymentFailed` but `errors.Is(err, PaymentFailed)` is false for
it. -/
theorem PayInvoice_failed_not_sentinel (pre rest : List (Received PayMessage))
    (m : PayMessage) (err : Option GoError) (h : ∀ r ∈ pre, PayWaiting r)
    (hs : m.Status = "FAILED") (hm : m.ErrorMessage = "")
    (herr : err = none ∨ err = some io.EOF) :
    PayInvoice (connected (pre ++ { message := m, err := err } :: rest))
        = some ((none, some (errors.New 267 "payment failed")), rest)
      ∧ errors.Is (errors.New 267 "payment failed") PaymentFailed = false
      ∧ errors.New 267 "payment failed" ≠ PaymentFailed := by
  refine ⟨?_, by decide, by decide⟩
  simp only [PayInvoice, connected, PayInvoice.loop_waiting pre _ h]
  rcases herr with herr | herr <;> subst herr <;> simp [PayInvoice.loop, hs, hm]

theorem PayInvoice_failed_not_sentinel_witness :
    PayInvoice (connected [payUpdate "IN_FLIGHT" "",
        { message := { Status := "FAILED", PreImage := "",
                       FailureReason := "FAILURE_REASON_NO_ROUTE", ErrorMessage := "" }
          err := none }])
        = some ((none, some (errors.New 267 "payment failed")), [])
      ∧ errors.Is (errors.New 267 "payment failed") PaymentFailed = false
      ∧ errors.New 267 "payment failed" ≠ PaymentFailed :=
  PayInvoice_failed_not_sentinel [payUpdate "IN_FLIGHT" ""] []
    { Status := "FAILED", PreImage := "", FailureReason := "FAILURE_REASON_NO_ROUTE",
      ErrorMessage := "" } none
    (by simp [PayWaiting, payUpdate]) rfl rfl (Or.inl rfl)

/-- C2: after zero or more waiting updates, a receive that reports the end of
the stream with no update decoded makes `PayInvoice` return no preimage and
the error `io.EOF`, which is not nil and for which
`errors.Is(err, PaymentFailed)` is false. -/
theorem PayInvoice_stream_closed (pre rest : List (Received PayMessage))
    (h : ∀ r ∈ pre, PayWaiting r) :
    PayInvoice (connected (pre ++ payClosed :: rest)) = some ((none, some io.EOF), rest)
      ∧ errors.Is io.EOF PaymentFailed = false := by
  refine ⟨?_, by decide⟩
  simp only [PayInvoice, connected, PayInvoice.loop_waiting pre _ h]
  simp [PayInvoice.loop, payClosed]

theorem PayInvoice_stream_closed_witness :
    PayInvoice (connected [payUpdate "IN_FLIGHT" "", payUpdate "IN_FLIGHT" "", payClosed])
        = some ((none, some io.EOF), [])
      ∧ errors.Is io.EOF PaymentFailed = false :=
  PayInvoice_stream_closed [payUpdate "IN_FLIGHT" "", payUpdate "IN_FLIGHT" ""] []
    (by simp [PayWaiting, payUpdate])

/-- C3: after zero or more waiting updates, every update with status
`SUCCEEDED`, an empty error message and the hex encoding of the byte string
`p` as preimage, whatever its failure reason and whether the receive returned
no error or `io.EOF`, makes `PayInvoice` return `(p, nil)`, and every receive
after that update is left unconsumed. -/
theorem PayInvoice_succeeded (pre rest : List (Received PayMessage)) (p : List Nat)
    (m : PayMessage) (err : Option GoError)
    (hp : ∀ b ∈ p, b < 256) (h : ∀ r ∈ pre, PayWaiting r)
    (hs : m.Status = "SUCCEEDED") (hm : m.ErrorMessage = "")
    (hx : m.PreImage = hex.EncodeToString p) (herr : err = none ∨ err = some io.EOF) :
    PayInvoice (connected (pre ++ { message := m, err := err } :: rest))
      = some ((some p, none), rest) := by
  simp only [PayInvoice, connected, PayInvoice.loop_waiting pre _ h]
  rcases herr with herr | herr <;> subst herr <;>
    simp [PayInvoice.loop, hs, hm, hx, DecodeString_EncodeToString p hp]

theorem PayInvoice_succeeded_witness :
    PayInvoice (connected [payUpdate "IN_FLIGHT" "", payUpdate "IN_FLIGHT" "",
        { message := { Status := "SUCCEEDED", PreImage := hex.EncodeToString [0, 171, 255],
                       FailureReason := "FAILURE_REASON_NONE", ErrorMessage := "" }
          err := none },
        payUpdate "FAILED" ""])
      = some ((some [0, 171, 255], none), [payUpdate "FAILED" ""]) :=
  PayInvoice_succeeded [payUpdate "IN_FLIGHT" "", payUpdate "IN_FLIGHT" ""]
    [payUpdate "FAILED" ""] [0, 171, 255]
    { Status := "SUCCEEDED", PreImage := hex.EncodeToString [0, 171, 255],
      FailureReason := "FAILURE_REASON_NONE", ErrorMessage := "" } none
    (by decide) (by simp [PayWaiting, payUpdate]) rfl rfl rfl (Or.inl rfl)

/-- C4: when the stream of `WatchInvoice` closes after zero or more `OPEN`
notifications (the receive returns `io.EOF` and decodes nothing), the call
returns the error of the unhandled-state branch with an empty state name, not
`io.EOF`. -/
theorem WatchInvoice_stream_closed_unhandled (pre rest : List (Received WatchMessage))
    (h : ∀ r ∈ pre, WatchOpen r) :
    WatchInvoice (connected (pre ++ watchClosed :: rest))
        = some ((0, some (fmt.Errorf 157 "v2/invoices/subscribe unhandled state: ")), rest)
      ∧ fmt.Errorf 157 "v2/invoices/subscribe unhandled state: " ≠ io.EOF
      ∧ errors.Is (fmt.Errorf 157 "v2/invoices/subscribe unhandled state: ") io.EOF = false := by
  refine ⟨?_, by decide, by decide⟩
  simp only [WatchInvoice, connected, WatchInvoice.loop_open pre _ h]
  simp [WatchInvoice.loop, watchClosed]

theorem WatchInvoice_stream_closed_unhandled_witness :
    WatchInvoice (connected [watchUpdate "OPEN" 0, watchClosed])
        = some ((0, some (fmt.Errorf 157 "v2/invoices/subscribe unhandled state: ")), [])
      ∧ fmt.Errorf 157 "v2/invoices/subscribe unhandled state: " ≠ io.EOF
      ∧ errors.Is (fmt.Errorf 157 "v2/invoices/subscribe unhandled state: ") io.EOF = false :=
  WatchInvoice_stream_closed_unhandled [watchUpdate "OPEN" 0] []
    (by simp [WatchOpen, watchUpdate])

/-- C5: after zero or more `OPEN` notifications, a notification with state
`ACCEPTED`, paid amount `a` and an empty error message makes `WatchInvoice`
return `(a, nil)`. -/
theorem WatchInvoice_accepted (pre rest : List (Received WatchMessage)) (a : Nat)
    (h : ∀ r ∈ pre, WatchOpen r) :
    WatchInvoice (connected (pre ++ watchUpdate "ACCEPTED" a :: rest))
      = some ((a, none), rest) := by
  simp only [WatchInvoice, connected, WatchInvoice.loop_open pre _ h]
  simp [WatchInvoice.loop, watchUpdate]

theorem WatchInvoice_accepted_witness :
    WatchInvoice (connected [watchUpdate "OPEN" 0, watchUpdate "OPEN" 0,
        watchUpdate "ACCEPTED" 21000])
      = some ((21000, none), []) :=
  WatchInvoice_accepted [watchUpdate "OPEN" 0, watchUpdate "OPEN" 0] [] 21000
    (by simp [WatchOpen, watchUpdate])

/-- C6: after zero or more `OPEN` notifications, a notification with state
`SETTLED` or `CANCELED`, paid amount `a` and an empty error message makes
`WatchInvoice` return `a` together with a non-nil error whose text names the
state. -/
theorem WatchInvoice_resolved_before_acceptance (pre rest : List (Received WatchMessage))
    (state : String) (a : Nat) (h : ∀ r ∈ pre, WatchOpen r)
    (hs : state = "SETTLED" ∨ state = "CANCELED") :
    WatchInvoice (connected (pre ++ watchUpdate state a :: rest))
      = some ((a, some (fmt.Errorf 155 ("invoice " ++ state ++ " before payment"))), rest) := by
  simp only [WatchInvoice, connected, WatchInvoice.loop_open pre _ h]
  rcases hs with hs | hs <;> subst hs <;> simp [WatchInvoice.loop, watchUpdate]

theorem WatchInvoice_resolved_before_acceptance_witness :
    WatchInvoice (connected [watchUpdate "OPEN" 0, watchUpdate "CANCELED" 7])
      = some ((7, some (fmt.Errorf 155 "invoice CANCELED before payment")), []) :=
  WatchInvoice_resolved_before_acceptance [watchUpdate "OPEN" 0] [] "CANCELED" 7
    (by simp [WatchOpen, watchUpdate]) (Or.inr rfl)

/-! ## Arithmetic of the estimator -/

theorem wrap64_natCast (n : Nat) : wrap64 (n : Int) = n % U64 := by
  unfold wrap64 U64; omega

theorem wrap64_sub (a b s : Nat) : wrap64 ((a : Int) - b + s) = (sub64 a b + s) % U64 := by
  unfold wrap64 sub64 U64; omega

theorem wrap64_sub_zero (a b : Nat) : wrap64 ((a : Int) - b) = sub64 a b := by
  unfold wrap64 sub64 U64; omega

theorem wrap64_lt (z : Int) : wrap64 z < U64 := by
  unfold wrap64 U64; omega

theorem hopFee_eq (amount : Nat) (hop : HopHint) :
    hopFee amount hop = hop.FeeBaseMsat + (amount * hop.FeePPM) % U64 / 1000000 := by
  have h : ((amount : Int) * hop.FeePPM) = ((amount * hop.FeePPM : Nat) : Int) := by
    push_cast; rfl
  unfold hopFee
  rw [h, wrap64_natCast]

theorem hops_mod (amount : Nat) : ∀ (hops : List HopHint) (f c : Nat),
    EstimateRoutingFee.hops amount hops (f % U64, c % U64)
      = ((f + (hops.map (hopFee amount)).sum) % U64,
          (c + (hops.map HopHint.CltvExpiryDelta).sum) % U64)
  | [], f, c => by simp [EstimateRoutingFee.hops]
  | hop :: rest, f, c => by
    simp only [EstimateRoutingFee.hops, List.map_cons, List.sum_cons]
    rw [← hopFee_eq]
    have ih := hops_mod amount rest (f % U64 + hopFee amount hop % U64)
      (c % U64 + hop.CltvExpiryDelta)
    rw [ih]
    congr 1 <;> (unfold U64; omega)

/-- The inner loop on a hint with at least one hop computes the candidate of
the hint. -/
theorem hops_cons (amount height f c : Nat) (hop : HopHint) (rest : List HopHint) :
    EstimateRoutingFee.hops amount (hop :: rest) (f, sub64 c height)
      = hintCandidate amount height f c (hop :: rest) := by
  have h1 : ((f : Int) + ((List.map (hopFee amount) (hop :: rest)).sum : Nat))
      = ((f + (List.map (hopFee amount) (hop :: rest)).sum : Nat) : Int) := by
    push_cast; rfl
  simp only [EstimateRoutingFee.hops, hintCandidate]
  rw [← hopFee_eq, hops_mod, h1, wrap64_natCast, wrap64_sub]
  simp only [List.map_cons, List.sum_cons]
  congr 1 <;> (unfold U64; omega)

/-! ## The queries and the loop over the route hints -/

/-- A failed query returns the constant `18446744073709551615` as fee. -/
theorem estimateRoutingFee_err (lnd : Lnd) (log : List Request) (d : String) (amount : Nat)
    (f c : Nat) (e : GoError) (log2 : List Request)
    (h : estimateRoutingFee lnd log d amount = ((f, c, some e), log2)) : f = MaxUint64 := by
  unfold estimateRoutingFee at h
  split at h
  · simp only [Prod.mk.injEq] at h
    exact h.1.1.symm
  · simp only at h
    split at h
    · simp only [Prod.mk.injEq] at h; exact h.1.1.symm
    · simp only [Prod.mk.injEq] at h; exact h.1.1.symm
    · simp only [Prod.mk.injEq] at h; exact h.1.1.symm
    · split at h
      · simp only [Prod.mk.injEq] at h; exact h.1.1.symm
      · simp at h

/-- A query sends at most one request, a fee query for the amount given. -/
theorem estimateRoutingFee_log (lnd : Lnd) (log : List Request) (d : String) (amount : Nat) :
    ∃ new, (estimateRoutingFee lnd log d amount).2 = log ++ new ∧ QueriesUse amount new := by
  unfold estimateRoutingFee
  split
  · exact ⟨[], by simp, by simp [QueriesUse]⟩
  · rename_i dest _
    refine ⟨[Request.estimatefee dest ((amount + 999) % U64 / 1000)], ?_, ?_⟩
    · simp only
      split
      · rfl
      · rfl
      · rfl
      · split <;> rfl
    · intro r hr
      simp only [List.mem_singleton] at hr
      exact Or.inr ⟨dest, hr⟩

theorem QueriesUse_append (amount : Nat) (l1 l2 : List Request) (h1 : QueriesUse amount l1)
    (h2 : QueriesUse amount l2) : QueriesUse amount (l1 ++ l2) := by
  intro r hr
  rcases List.mem_append.1 hr with hr | hr
  · exact h1 r hr
  · exact h2 r hr

/-- The loop over the route hints folds `pick` over the candidates of the
hints. -/
theorem hints_pick (lnd : Lnd) (height amount : Nat) : ∀ (hints : List RouteHint) (s : Running),
    ((EstimateRoutingFee.hints lnd height amount hints s).fee_msat,
      (EstimateRoutingFee.hints lnd height amount hints s).cltv_delta)
      = (hintCandidatesWith (hintCandidate amount height) lnd amount hints s.log).foldl pick
          (s.fee_msat, s.cltv_delta)
  | [], s => by simp [EstimateRoutingFee.hints, hintCandidatesWith]
  | route_hint :: rest, s => by
    cases hh : route_hint.HopHints with
    | nil =>
      simp only [EstimateRoutingFee.hints, hintCandidatesWith, hh]
      exact hints_pick lnd height amount rest _
    | cons hop0 tl =>
      rcases hq : estimateRoutingFee lnd s.log hop0.NodeId amount with ⟨⟨f, c, e⟩, log2⟩
      cases e with
      | some e =>
        simp only [EstimateRoutingFee.hints, hintCandidatesWith, hh, hq]
        exact hints_pick lnd height amount rest _
      | none =>
        simp only [EstimateRoutingFee.hints, hintCandidatesWith, hh, hq, hops_cons,
          List.foldl_cons]
        by_cases hlt : (hintCandidate amount height f c (hop0 :: tl)).1 < s.fee_msat
        · simp only [if_pos hlt]
          rw [hints_pick lnd height amount rest _]
          simp [pick, hlt]
        · simp only [if_neg hlt]
          rw [hints_pick lnd height amount rest _]
          simp [pick, hlt]

/-- The loop over the route hints only adds fee queries for the amount. -/
theorem hints_log (lnd : Lnd) (height amount : Nat) : ∀ (hints : List RouteHint) (s : Running),
    ∃ new, (EstimateRoutingFee.hints lnd height amount hints s).log = s.log ++ new
      ∧ QueriesUse amount new
  | [], s => ⟨[], by simp [EstimateRoutingFee.hints], by simp [QueriesUse]⟩
  | route_hint :: rest, s => by
    cases hh : route_hint.HopHints with
    | nil =>
      simp only [EstimateRoutingFee.hints, hh]
      exact hints_log lnd height amount rest _
    | cons hop0 tl =>
      obtain ⟨n1, hn1, hq1⟩ := estimateRoutingFee_log lnd s.log hop0.NodeId amount
      rcases hq : estimateRoutingFee lnd s.log hop0.NodeId amount with ⟨⟨f, c, e⟩, log2⟩
      rw [hq] at hn1
      simp only at hn1
      cases e with
      | some e =>
        simp only [EstimateRoutingFee.hints, hh, hq]
        obtain ⟨n2, hn2, hq2⟩ := hints_log lnd height amount rest
          { s with errs := errors.Join s.errs (some e), log := log2 }
        exact ⟨n1 ++ n2, by rw [hn2, hn1, List.append_assoc],
          QueriesUse_append _ _ _ hq1 hq2⟩
      | none =>
        simp only [EstimateRoutingFee.hints, hh, hq]
        split
        · obtain ⟨n2, hn2, hq2⟩ := hints_log lnd height amount rest
            { fee_msat := (EstimateRoutingFee.hops amount (hop0 :: tl) (f, sub64 c height)).1,
              cltv_delta := (EstimateRoutingFee.hops amount (hop0 :: tl) (f, sub64 c height)).2,
              errs := errors.Join s.errs none, log := log2 }
          exact ⟨n1 ++ n2, by rw [hn2, hn1, List.append_assoc],
            QueriesUse_append _ _ _ hq1 hq2⟩
        · obtain ⟨n2, hn2, hq2⟩ := hints_log lnd height amount rest
            { s with errs := errors.Join s.errs none, log := log2 }
          exact ⟨n1 ++ n2, by rw [hn2, hn1, List.append_assoc],
            QueriesUse_append _ _ _ hq1 hq2⟩

/-- The total fee of the candidate of a route hint is a `uint64`. -/
theorem hintCandidates_lt (lnd : Lnd) (height amount : Nat) :
    ∀ (hints : List RouteHint) (log : List Request),
      ∀ c ∈ hintCandidatesWith (hintCandidate amount height) lnd amount hints log, c.1 < U64
  | [], log => by simp [hintCandidatesWith]
  | route_hint :: rest, log => by
    cases hh : route_hint.HopHints with
    | nil =>
      simp only [hintCandidatesWith, hh]
      exact hintCandidates_lt lnd height amount rest _
    | cons hop0 tl =>
      rcases hq : estimateRoutingFee lnd log hop0.NodeId amount with ⟨⟨f, c, e⟩, log2⟩
      cases e with
      | some e =>
        simp only [hintCandidatesWith, hh, hq]
        exact hintCandidates_lt lnd height amount rest _
      | none =>
        simp only [hintCandidatesWith, hh, hq]
        intro x hx
        rcases List.mem_cons.1 hx with hx | hx
        · rw [hx]; simp only [hintCandidate]; exact wrap64_lt _
        · exact hintCandidates_lt lnd height amount rest _ x hx

/-! ## The running minimum and the chosen candidate -/

theorem find_split {α : Type} (p : α → Bool) : ∀ (l1 : List α) (r : α) (l2 : List α),
    (∀ d ∈ l1, p d = false) → p r = true → (l1 ++ r :: l2).find? p = some r
  | [], r, l2, _, hr => by simp [List.find?_cons, hr]
  | a :: l1, r, l2, h1, hr => by
    have ha : p a = false := h1 a (List.mem_cons_self _ _)
    simp only [List.cons_append, List.find?_cons, ha]
    exact find_split p l1 r l2 (fun d hd => h1 d (List.mem_cons_of_mem _ hd)) hr

theorem chosen_of_split {δ : Type} (l1 l2 : List (Nat × δ)) (r : Nat × δ)
    (h1 : ∀ d ∈ l1, r.1 < d.1) (h2 : ∀ d ∈ l2, r.1 ≤ d.1) :
    chosen (l1 ++ r :: l2) = some r := by
  unfold chosen
  apply find_split
  · intro d hd
    simp only [decide_eq_false_iff_not]
    intro hall
    have := hall r (by simp)
    have := h1 d hd
    omega
  · simp only [decide_eq_true_eq]
    intro d hd
    rcases List.mem_append.1 hd with hd | hd
    · exact Nat.le_of_lt (h1 d hd)
    · rcases List.mem_cons.1 hd with hd | hd
      · rw [hd]
      · exact h2 d hd

theorem chosen_some {δ : Type} (cs : List (Nat × δ)) (r : Nat × δ) (h : chosen cs = some r) :
    r ∈ cs ∧ ∀ d ∈ cs, r.1 ≤ d.1 := by
  unfold chosen at h
  refine ⟨List.mem_of_find?_eq_some h, ?_⟩
  have := List.find?_some h
  simpa using this

theorem foldl_pick_split : ∀ (cs : List (Nat × Nat)) (init : Nat × Nat),
    ∃ l1 l2, init :: cs = l1 ++ cs.foldl pick init :: l2
      ∧ (∀ d ∈ l1, (cs.foldl pick init).1 < d.1) ∧ (∀ d ∈ l2, (cs.foldl pick init).1 ≤ d.1)
  | [], init => ⟨[], [], by simp⟩
  | c :: cs, init => by
    simp only [List.foldl_cons]
    by_cases hlt : c.1 < init.1
    · have hp : pick init c = c := by simp [pick, hlt]
      rw [hp]
      obtain ⟨l1, l2, he, h1, h2⟩ := foldl_pick_split cs c
      have hc : (cs.foldl pick c).1 ≤ c.1 := by
        have hm : c ∈ l1 ++ cs.foldl pick c :: l2 := by rw [← he]; simp
        rcases List.mem_append.1 hm with hm | hm
        · exact Nat.le_of_lt (h1 c hm)
        · rcases List.mem_cons.1 hm with hm | hm
          · rw [← hm]
          · exact h2 c hm
      refine ⟨init :: l1, l2, by rw [he]; rfl, ?_, h2⟩
      intro d hd
      rcases List.mem_cons.1 hd with hd | hd
      · rw [hd]; omega
      · exact h1 d hd
    · have hp : pick init c = init := by simp [pick, hlt]
      rw [hp]
      obtain ⟨l1, l2, he, h1, h2⟩ := foldl_pick_split cs init
      cases l1 with
      | nil =>
        simp only [List.nil_append, List.cons.injEq] at he
        refine ⟨[], c :: l2, by rw [← he.2, ← he.1]; rfl, by simp, ?_⟩
        intro d hd
        rcases List.mem_cons.1 hd with hd | hd
        · rw [hd, ← he.1]; omega
        · exact h2 d hd
      | cons a l1 =>
        simp only [List.cons_append, List.cons.injEq] at he
        refine ⟨init :: c :: l1, l2, ?_, ?_, h2⟩
        · simp only [List.cons_append, List.cons.injEq, true_and]
          exact he.2
        have ha : (cs.foldl pick init).1 < init.1 := by
          have := h1 a (List.mem_cons_self _ _)
          rw [← he.1] at this
          exact this
        intro d hd
        rcases List.mem_cons.1 hd with hd | hd
        · rw [hd]; exact ha
        · rcases List.mem_cons.1 hd with hd | hd
          · rw [hd]; omega
          · exact h1 d (List.mem_cons_of_mem _ hd)

/-- The fold of `pick` from a first candidate ends on the chosen candidate. -/
theorem pick_chosen (init : Nat × Nat) (cs : List (Nat × Nat)) :
    chosen (init :: cs) = some (cs.foldl pick init) := by
  obtain ⟨l1, l2, he, h1, h2⟩ := foldl_pick_split cs init
  generalize List.foldl pick init cs = r at *
  rw [he]
  exact chosen_of_split l1 l2 r h1 h2

/-- The fold of `pick` from the constant `18446744073709551615` ends on the
chosen candidate, or on the constant when no candidate has a smaller fee. -/
theorem pick_chosen_failed (init : Nat × Nat) (cs : List (Nat × Nat))
    (hinit : init.1 = MaxUint64) (hlt : ∀ d ∈ cs, d.1 < U64) :
    chosen cs = some (cs.foldl pick init)
      ∨ ((cs.foldl pick init).1 = MaxUint64
          ∧ (cs = [] ∨ ∃ ch, chosen cs = some ch ∧ ch.1 = MaxUint64)) := by
  obtain ⟨l1, l2, he, h1, h2⟩ := foldl_pick_split cs init
  generalize List.foldl pick init cs = r at *
  cases l1 with
  | nil =>
    right
    simp only [List.nil_append, List.cons.injEq] at he
    have hfee : r.1 = MaxUint64 := by rw [← he.1]; exact hinit
    refine ⟨hfee, ?_⟩
    cases cs with
    | nil => left; rfl
    | cons a cs =>
      right
      have hall : ∀ d ∈ a :: cs, d.1 = MaxUint64 := by
        intro d hd
        have hge := h2 d (by rw [← he.2]; exact hd)
        rw [hfee] at hge
        have hl := hlt d hd
        unfold U64 at hl
        unfold MaxUint64 at hge ⊢
        omega
      refine ⟨a, ?_, hall a (List.mem_cons_self _ _)⟩
      have := chosen_of_split [] cs a (by simp) (fun d hd => by
        rw [hall a (List.mem_cons_self _ _), hall d (List.mem_cons_of_mem _ hd)])
      simpa using this
  | cons a l1 =>
    left
    simp only [List.cons_append, List.cons.injEq] at he
    rw [he.2]
    exact chosen_of_split l1 l2 r (fun d hd => h1 d (List.mem_cons_of_mem _ hd)) h2

theorem hints_fee (lnd : Lnd) (height amount : Nat) (hints : List RouteHint) (s : Running) :
    (EstimateRoutingFee.hints lnd height amount hints s).fee_msat
      = ((hintCandidatesWith (hintCandidate amount height) lnd amount hints s.log).foldl pick
          (s.fee_msat, s.cltv_delta)).1 :=
  congrArg Prod.fst (hints_pick lnd height amount hints s)

theorem hints_cltv (lnd : Lnd) (height amount : Nat) (hints : List RouteHint) (s : Running) :
    (EstimateRoutingFee.hints lnd height amount hints s).cltv_delta
      = ((hintCandidatesWith (hintCandidate amount height) lnd amount hints s.log).foldl pick
          (s.fee_msat, s.cltv_delta)).2 :=
  congrArg Prod.snd (hints_pick lnd height amount hints s)

/-- The running minimum after the loop is the chosen candidate, unless its fee
is the constant `18446744073709551615` and either no candidate exists or the
chosen candidate has that fee as well. -/
theorem running_chosen (lnd : Lnd) (invoice : DecodedInvoice) (height amount : Nat)
    (log : List Request) :
    chosen (candidates lnd invoice height amount log)
        = some ((running lnd invoice height amount log).fee_msat,
            (running lnd invoice height amount log).cltv_delta)
      ∨ ((running lnd invoice height amount log).fee_msat = MaxUint64
          ∧ (candidates lnd invoice height amount log = []
            ∨ ∃ ch, chosen (candidates lnd invoice height amount log) = some ch
                ∧ ch.1 = MaxUint64)) := by
  unfold running candidates candidatesWith
  rcases hq : estimateRoutingFee lnd log invoice.Destination amount with ⟨⟨f, c, e⟩, log2⟩
  simp only [hints_fee, hints_cltv, Prod.mk.eta]
  cases e with
  | none =>
    left
    simp only [directCandidate, wrap64_sub_zero]
    exact pick_chosen _ _
  | some e =>
    have hf : f = MaxUint64 := estimateRoutingFee_err lnd log _ amount f c e log2 hq
    exact pick_chosen_failed (f, sub64 c height) _ hf
      (hintCandidates_lt lnd height amount invoice.RouteHints log2)

/-! ## The body of the estimator -/

theorem getBlockHeight_log (lnd : Lnd) (log : List Request) :
    (getBlockHeight lnd log).2 = log ++ [Request.bestblock] := by
  unfold getBlockHeight
  simp only
  split
  · rfl
  · rfl
  · rfl
  · split <;> rfl

theorem body_eq (lnd : Lnd) (invoice : DecodedInvoice) (amount : Nat) (log : List Request)
    (height : Nat) (log1 : List Request)
    (hH : getBlockHeight lnd log = ((height, none), log1)) :
    EstimateRoutingFee.body lnd invoice amount log
      = if (running lnd invoice height amount log1).fee_msat = MaxUint64
            ∨ (running lnd invoice height amount log1).cltv_delta = MaxUint64 then
          ((0, 0, errors.Join (running lnd invoice height amount log1).errs
              (some (errors.New 356 "could not find route"))),
            (running lnd invoice height amount log1).log)
        else
          (((running lnd invoice height amount log1).fee_msat,
              ((running lnd invoice height amount log1).cltv_delta + invoice.CltvExpiry) % U64,
              none),
            (running lnd invoice height amount log1).log) := by
  unfold EstimateRoutingFee.body running
  rw [hH]
  rfl

theorem body_height_err (lnd : Lnd) (invoice : DecodedInvoice) (amount : Nat)
    (log : List Request) (height : Nat) (e : GoError) (log1 : List Request)
    (hH : getBlockHeight lnd log = ((height, some e), log1)) :
    EstimateRoutingFee.body lnd invoice amount log = ((0, 0, some e), log1) := by
  unfold EstimateRoutingFee.body
  rw [hH]

theorem EstimateRoutingFee_body (lnd : Lnd) (invoice : DecodedInvoice) (amount_msat : Nat)
    (log : List Request) (h : ¬ (invoice.NumMsat = 0 ∧ amount_msat = 0)) :
    EstimateRoutingFee lnd invoice amount_msat log
      = EstimateRoutingFee.body lnd invoice (resolvedAmount invoice amount_msat) log := by
  unfold EstimateRoutingFee resolvedAmount
  rw [if_neg h]
  split <;> rfl

theorem body_log (lnd : Lnd) (invoice : DecodedInvoice) (amount : Nat) (log : List Request) :
    ∃ new, (EstimateRoutingFee.body lnd invoice amount log).2 = log ++ new
      ∧ QueriesUse amount new := by
  have hb : QueriesUse amount [Request.bestblock] := by
    intro r hr
    simp only [List.mem_singleton] at hr
    exact Or.inl hr
  have hl := getBlockHeight_log lnd log
  rcases hH : getBlockHeight lnd log with ⟨⟨height, e⟩, log1⟩
  rw [hH] at hl
  simp only at hl
  cases e with
  | some e =>
    rw [body_height_err lnd invoice amount log height e log1 hH]
    exact ⟨[Request.bestblock], hl, hb⟩
  | none =>
    rw [body_eq lnd invoice amount log height log1 hH]
    obtain ⟨n1, hn1, hq1⟩ := estimateRoutingFee_log lnd log1 invoice.Destination amount
    obtain ⟨n2, hn2, hq2⟩ := hints_log lnd height amount invoice.RouteHints
      { fee_msat := (estimateRoutingFee lnd log1 invoice.Destination amount).1.1
        cltv_delta := sub64 (estimateRoutingFee lnd log1 invoice.Destination amount).1.2.1 height
        errs := (estimateRoutingFee lnd log1 invoice.Destination amount).1.2.2
        log := (estimateRoutingFee lnd log1 invoice.Destination amount).2 }
    have hr : (running lnd invoice height amount log1).log
        = log ++ ([Request.bestblock] ++ (n1 ++ n2)) := by
      unfold running
      rw [hn2]
      simp only
      rw [hn1, hl]
      simp
    refine ⟨[Request.bestblock] ++ (n1 ++ n2), ?_,
      QueriesUse_append _ _ _ hb (QueriesUse_append _ _ _ hq1 hq2)⟩
    split <;> exact hr

/-! ## Success and failure of the estimator -/

theorem Join_some_ne_none (a : Option GoError) (b : GoError) : errors.Join a (some b) ≠ none := by
  cases a <;> simp [errors.Join]

theorem wrap64_add (z : Int) (e : Nat) : wrap64 ((wrap64 z : Int) + e) = wrap64 (z + e) := by
  unfold wrap64; omega

theorem wrap64_add_nat (d e : Nat) : wrap64 ((d : Int) + e) = (d + e) % U64 := by
  unfold wrap64 U64; omega

/-- A successful call had a non-zero resolved amount and a successful
block-height query, and returns the chosen candidate: its fee, and its delta
plus the final expiry of the invoice as a `uint64`. -/
theorem success_chosen (lnd : Lnd) (invoice : DecodedInvoice) (amount_msat : Nat)
    (log : List Request) (fee cltv : Nat)
    (h : (EstimateRoutingFee lnd invoice amount_msat log).1 = (fee, cltv, none)) :
    ∃ d, chosen (candidates lnd invoice (getBlockHeight lnd log).1.1
            (resolvedAmount invoice amount_msat) (getBlockHeight lnd log).2) = some (fee, d)
      ∧ cltv = wrap64 ((d : Int) + invoice.CltvExpiry) := by
  have hamt : ¬ (invoice.NumMsat = 0 ∧ amount_msat = 0) := by
    intro hz
    unfold EstimateRoutingFee at h
    rw [if_pos hz] at h
    simp at h
  rw [EstimateRoutingFee_body lnd invoice amount_msat log hamt] at h
  rcases hH : getBlockHeight lnd log with ⟨⟨height, e⟩, log1⟩
  cases e with
  | some e =>
    rw [body_height_err lnd invoice _ log height e log1 hH] at h
    simp at h
  | none =>
    rw [body_eq lnd invoice _ log height log1 hH] at h
    simp only
    split at h
    · simp only [Prod.mk.injEq] at h
      exact absurd h.2.2 (Join_some_ne_none _ _)
    · rename_i hne
      simp only [Prod.mk.injEq, and_true] at h
      have hfee : ¬ (running lnd invoice height (resolvedAmount invoice amount_msat) log1).fee_msat
          = MaxUint64 := fun hc => hne (Or.inl hc)
      rcases running_chosen lnd invoice height (resolvedAmount invoice amount_msat) log1
        with hch | hch
      · refine ⟨(running lnd invoice height (resolvedAmount invoice amount_msat) log1).cltv_delta,
          ?_, ?_⟩
        · rw [hch, h.1]
        · rw [wrap64_add_nat]; exact h.2.symm
      · exact absurd hch.1 hfee

/-- With a non-zero resolved amount and a successful block-height query, the
call fails exactly when no candidate exists or the chosen candidate has the
constant `18446744073709551615` as fee or as delta. -/
theorem fails_iff (lnd : Lnd) (invoice : DecodedInvoice) (amount_msat : Nat)
    (log : List Request) (height : Nat) (log1 : List Request)
    (hamt : ¬ (invoice.NumMsat = 0 ∧ amount_msat = 0))
    (hH : getBlockHeight lnd log = ((height, none), log1)) :
    ((EstimateRoutingFee lnd invoice amount_msat log).1
        = (0, 0, errors.Join (running lnd invoice height
              (resolvedAmount invoice amount_msat) log1).errs
            (some (errors.New 356 "could not find route")))
      ∧ (candidates lnd invoice height (resolvedAmount invoice amount_msat) log1 = []
        ∨ ∃ ch, chosen (candidates lnd invoice height (resolvedAmount invoice amount_msat) log1)
              = some ch ∧ (ch.1 = MaxUint64 ∨ ch.2 = MaxUint64)))
    ∨ ((EstimateRoutingFee lnd invoice amount_msat log).1.2.2 = none
      ∧ ¬ (candidates lnd invoice height (resolvedAmount invoice amount_msat) log1 = []
        ∨ ∃ ch, chosen (candidates lnd invoice height (resolvedAmount invoice amount_msat) log1)
              = some ch ∧ (ch.1 = MaxUint64 ∨ ch.2 = MaxUint64))) := by
  rw [EstimateRoutingFee_body lnd invoice amount_msat log hamt,
    body_eq lnd invoice _ log height log1 hH]
  have hrc := running_chosen lnd invoice height (resolvedAmount invoice amount_msat) log1
  split
  · rename_i hmax
    left
    refine ⟨rfl, ?_⟩
    rcases hrc with hch | hch
    · right
      exact ⟨_, hch, hmax⟩
    · rcases hch.2 with hnil | ⟨ch, h1, h2⟩
      · left; exact hnil
      · right; exact ⟨ch, h1, Or.inl h2⟩
  · rename_i hmax
    right
    refine ⟨rfl, ?_⟩
    rcases hrc with hch | hch
    · intro hc
      rcases hc with hnil | ⟨ch, h1, h2⟩
      · rw [hnil] at hch
        simp [chosen] at hch
      · rw [hch] at h1
        simp only [Option.some.injEq] at h1
        rw [← h1] at h2
        exact hmax h2
    · exact absurd (Or.inl hch.1) hmax

/-! ## EstimateRoutingFee: the claims -/

/-- C7: (a) with a zero invoice amount and a zero caller amount the call fails
with the amount-required error and sends no request; (b) with a non-zero
invoice amount the call is, for every caller amount, the call with the invoice
amount, it runs the body on the invoice amount and every fee query it sends
carries that amount; (c) with a zero invoice amount and a non-zero caller
amount the call is the call for the same invoice carrying the caller amount,
it runs the body on the caller amount and every fee query carries it. -/
theorem EstimateRoutingFee_amount (lnd : Lnd) (invoice : DecodedInvoice) (amount_msat : Nat)
    (log : List Request) :
    (invoice.NumMsat = 0 → amount_msat = 0 →
      EstimateRoutingFee lnd invoice amount_msat log
        = ((0, 0, some (errors.New 324 "need a non-zero amount to estimate fee")), log))
    ∧ (0 < invoice.NumMsat →
      EstimateRoutingFee lnd invoice amount_msat log
          = EstimateRoutingFee lnd invoice invoice.NumMsat log
        ∧ EstimateRoutingFee lnd invoice amount_msat log
          = EstimateRoutingFee.body lnd invoice invoice.NumMsat log
        ∧ ∃ new, (EstimateRoutingFee lnd invoice amount_msat log).2 = log ++ new
            ∧ QueriesUse invoice.NumMsat new)
    ∧ (invoice.NumMsat = 0 → 0 < amount_msat →
      (∀ other, EstimateRoutingFee lnd invoice amount_msat log
          = EstimateRoutingFee lnd { invoice with NumMsat := amount_msat } other log)
        ∧ EstimateRoutingFee lnd invoice amount_msat log
          = EstimateRoutingFee.body lnd invoice amount_msat log
        ∧ ∃ new, (EstimateRoutingFee lnd invoice amount_msat log).2 = log ++ new
            ∧ QueriesUse amount_msat new) := by
  refine ⟨?_, ?_, ?_⟩
  · intro h1 h2
    unfold EstimateRoutingFee
    rw [if_pos ⟨h1, h2⟩]
  · intro h1
    have hb : ∀ a, EstimateRoutingFee lnd invoice a log
        = EstimateRoutingFee.body lnd invoice invoice.NumMsat log := by
      intro a
      unfold EstimateRoutingFee
      rw [if_neg (by omega), if_pos h1]
    refine ⟨by rw [hb, hb], hb _, ?_⟩
    rw [hb]
    exact body_log lnd invoice invoice.NumMsat log
  · intro h1 h2
    have hb : EstimateRoutingFee lnd invoice amount_msat log
        = EstimateRoutingFee.body lnd invoice amount_msat log := by
      unfold EstimateRoutingFee
      rw [if_neg (by omega), if_neg (by omega)]
    refine ⟨?_, hb, ?_⟩
    · intro other
      rw [hb]
      unfold EstimateRoutingFee
      rw [if_neg (by simp only; omega), if_pos (by simp only; omega)]
      rfl
    · rw [hb]
      exact body_log lnd invoice amount_msat log

theorem EstimateRoutingFee_amount_witness :
    EstimateRoutingFee (lndOf 800000 (.ok (100000, 800040) none) (.ok (49000, 800020) none))
        (invoiceOf 0 18 []) 0 []
      = ((0, 0, some (errors.New 324 "need a non-zero amount to estimate fee")), [])
    ∧ EstimateRoutingFee (lndOf 800000 (.ok (100000, 800040) none) (.ok (49000, 800020) none))
        (invoiceOf 1000000 18 [⟨[hopOf 500 500 40]⟩]) 5 []
      = EstimateRoutingFee (lndOf 800000 (.ok (100000, 800040) none) (.ok (49000, 800020) none))
        (invoiceOf 1000000 18 [⟨[hopOf 500 500 40]⟩]) 1000000 []
    ∧ ∀ other,
      EstimateRoutingFee (lndOf 800000 (.ok (100000, 800040) none) (.ok (49000, 800020) none))
        (invoiceOf 0 18 [⟨[hopOf 500 500 40]⟩]) 7000 []
      = EstimateRoutingFee (lndOf 800000 (.ok (100000, 800040) none) (.ok (49000, 800020) none))
        { invoiceOf 0 18 [⟨[hopOf 500 500 40]⟩] with NumMsat := 7000 } other [] :=
  ⟨(EstimateRoutingFee_amount _ (invoiceOf 0 18 []) 0 []).1 rfl rfl,
    ((EstimateRoutingFee_amount _ (invoiceOf 1000000 18 [⟨[hopOf 500 500 40]⟩]) 5 []).2.1
      (by decide)).1,
    ((EstimateRoutingFee_amount _ (invoiceOf 0 18 [⟨[hopOf 500 500 40]⟩]) 7000 []).2.2
      rfl (by decide)).1⟩

/-- Without overflow the `uint64` total fee of a hint is its total fee over
the integers. -/
theorem hintCandidate_fee_exact (amount height fee lock : Nat) (hops : List HopHint)
    (hmul : ∀ hop ∈ hops, amount * hop.FeePPM < U64)
    (hsum : fee + (hops.map (hopFeeExact amount)).sum < U64) :
    (hintCandidate amount height fee lock hops).1
      = (hintCandidateExact amount height fee lock hops).1 := by
  have hm : hops.map (hopFee amount) = hops.map (hopFeeExact amount) := by
    apply List.map_congr_left
    intro hop hh
    rw [hopFee_eq, hopFeeExact, Nat.mod_eq_of_lt (hmul hop hh)]
  have hc : ((fee : Int) + ((hops.map (hopFeeExact amount)).sum : Nat))
      = ((fee + (hops.map (hopFeeExact amount)).sum : Nat) : Int) := by
    push_cast; rfl
  simp only [hintCandidate, hintCandidateExact]
  rw [hm, hc, wrap64_natCast, Nat.mod_eq_of_lt hsum]

/-- C8, as the claim words it, fails: a private destination (the direct query
finds no path), an invoice of 5,000,000,000 msat and one hint whose hop asks
4,000,000,000 parts per million.  The product overflows a `uint64`; the call
returns the fee 1,553,255,927,300 while the only candidate totals
20,000,000,001,010 over the integers. -/
theorem EstimateRoutingFee_min_fee_exact_fails :
    (EstimateRoutingFee
        (lndOf 800000 (.notOK "unable to find a path to destination" none)
          (.ok (10, 800040) none))
        (invoiceOf 5000000000 18 [⟨[hopOf 1000 4000000000 40]⟩]) 0 []).1
      = (1553255927300, 98, none)
    ∧ getBlockHeight
        (lndOf 800000 (.notOK "unable to find a path to destination" none)
          (.ok (10, 800040) none)) []
      = ((800000, none), [Request.bestblock])
    ∧ (candidatesExact
        (lndOf 800000 (.notOK "unable to find a path to destination" none)
          (.ok (10, 800040) none))
        (invoiceOf 5000000000 18 [⟨[hopOf 1000 4000000000 40]⟩]) 800000 5000000000
        [Request.bestblock]).map Prod.fst
      = [20000000001010]
    ∧ (EstimateRoutingFee
        (lndOf 800000 (.notOK "unable to find a path to destination" none)
          (.ok (10, 800040) none))
        (invoiceOf 5000000000 18 [⟨[hopOf 1000 4000000000 40]⟩]) 0 []).1.1
      ∉ (candidatesExact
        (lndOf 800000 (.notOK "unable to find a path to destination" none)
          (.ok (10, 800040) none))
        (invoiceOf 5000000000 18 [⟨[hopOf 1000 4000000000 40]⟩]) 800000 5000000000
        [Request.bestblock]).map Prod.fst := by
  refine ⟨by decide, by decide, by decide, by decide⟩

/-- C8 (amended): whenever the call succeeds, the fee returned is the total
fee of one of the candidates and is at most the total fee of every candidate,
where the candidates are the direct one (if its query succeeded) and every
route hint with at least one hop whose first-hop query succeeded, the total of
the direct candidate is the fee the node answered, and the total of a hint is
the fee the node answered for its first hop plus, over all its hops,
`FeeBaseMsat + floor((amount * FeePPM mod 2^64) / 1000000)`, the sum taken
modulo `2^64`. -/
theorem EstimateRoutingFee_min_fee (lnd : Lnd) (invoice : DecodedInvoice) (amount_msat : Nat)
    (log : List Request) (fee cltv : Nat)
    (h : (EstimateRoutingFee lnd invoice amount_msat log).1 = (fee, cltv, none)) :
    fee ∈ (candidates lnd invoice (getBlockHeight lnd log).1.1
          (resolvedAmount invoice amount_msat) (getBlockHeight lnd log).2).map Prod.fst
      ∧ ∀ t ∈ (candidates lnd invoice (getBlockHeight lnd log).1.1
          (resolvedAmount invoice amount_msat) (getBlockHeight lnd log).2).map Prod.fst,
        fee ≤ t := by
  obtain ⟨d, hch, _⟩ := success_chosen lnd invoice amount_msat log fee cltv h
  obtain ⟨hmem, hmin⟩ := chosen_some _ _ hch
  refine ⟨List.mem_map.2 ⟨(fee, d), hmem, rfl⟩, ?_⟩
  intro t ht
  obtain ⟨c, hc, hct⟩ := List.mem_map.1 ht
  rw [← hct]
  exact hmin c hc

theorem EstimateRoutingFee_min_fee_witness :
    (EstimateRoutingFee (lndOf 800000 (.ok (100000, 800040) none) (.ok (49000, 800020) none))
        (invoiceOf 1000000 18 [⟨[]⟩, ⟨[hopOf 500 500 40]⟩]) 0 []).1 = (50000, 78, none)
    ∧ (candidates (lndOf 800000 (.ok (100000, 800040) none) (.ok (49000, 800020) none))
        (invoiceOf 1000000 18 [⟨[]⟩, ⟨[hopOf 500 500 40]⟩]) 800000 1000000
        [Request.bestblock]).map Prod.fst = [100000, 50000]
    ∧ (50000 ∈ (candidates
          (lndOf 800000 (.ok (100000, 800040) none) (.ok (49000, 800020) none))
          (invoiceOf 1000000 18 [⟨[]⟩, ⟨[hopOf 500 500 40]⟩])
          (getBlockHeight
            (lndOf 800000 (.ok (100000, 800040) none) (.ok (49000, 800020) none)) []).1.1
          (resolvedAmount (invoiceOf 1000000 18 [⟨[]⟩, ⟨[hopOf 500 500 40]⟩]) 0)
          (getBlockHeight
            (lndOf 800000 (.ok (100000, 800040) none) (.ok (49000, 800020) none))
            []).2).map Prod.fst
      ∧ ∀ t ∈ (candidates
          (lndOf 800000 (.ok (100000, 800040) none) (.ok (49000, 800020) none))
          (invoiceOf 1000000 18 [⟨[]⟩, ⟨[hopOf 500 500 40]⟩])
          (getBlockHeight
            (lndOf 800000 (.ok (100000, 800040) none) (.ok (49000, 800020) none)) []).1.1
          (resolvedAmount (invoiceOf 1000000 18 [⟨[]⟩, ⟨[hopOf 500 500 40]⟩]) 0)
          (getBlockHeight
            (lndOf 800000 (.ok (100000, 800040) none) (.ok (49000, 800020) none))
            []).2).map Prod.fst, 50000 ≤ t) :=
  ⟨by decide, by decide,
    EstimateRoutingFee_min_fee _ (invoiceOf 1000000 18 [⟨[]⟩, ⟨[hopOf 500 500 40]⟩]) 0 []
      50000 78 (by decide)⟩

/-- C9, as the claim words it, fails: the node answers the time lock 40 at
block height 800000 and the invoice asks a final expiry of 18.  The direct
candidate is the only one; `(L - H) + E` is -799942 over the integers (18 if
the subtraction stops at zero), and the call returns 18446744073708751674. -/
theorem EstimateRoutingFee_cltv_delta_exact_fails :
    (EstimateRoutingFee (lndOf 800000 (.ok (1000, 40) none) (.ok (1000, 40) none))
        (invoiceOf 1000 18 []) 0 []).1 = (1000, 18446744073708751674, none)
    ∧ getBlockHeight (lndOf 800000 (.ok (1000, 40) none) (.ok (1000, 40) none)) []
      = ((800000, none), [Request.bestblock])
    ∧ chosen (candidatesExact (lndOf 800000 (.ok (1000, 40) none) (.ok (1000, 40) none))
        (invoiceOf 1000 18 []) 800000 1000 [Request.bestblock])
      = some (directCandidateExact 800000 1000 40)
    ∧ (directCandidateExact 800000 1000 40).2 + 18 = -799942
    ∧ ((18446744073708751674 : Nat) : Int) ≠ (directCandidateExact 800000 1000 40).2 + 18
    ∧ (18446744073708751674 : Nat) ≠ (40 - 800000) + 18 := by
  refine ⟨by decide, by decide, by decide, by decide, by decide, by decide⟩

/-- C9 (amended): whenever the call succeeds, the candidates have a chosen one
(the earliest whose total fee is the minimum), the fee returned is its total
fee and the delta returned is its relative delta plus the final expiry of the
invoice, modulo `2^64`; the relative delta of the direct candidate is
`(L - H) mod 2^64` and that of a hint is `(L - H + sum of CltvExpiryDelta)
mod 2^64`, so the delta returned is `(L - H + E) mod 2^64` when the direct
candidate is chosen and `(L - H + sum of CltvExpiryDelta + E) mod 2^64` when
a hint is. -/
theorem EstimateRoutingFee_cltv_delta (lnd : Lnd) (invoice : DecodedInvoice)
    (amount_msat : Nat) (log : List Request) (fee cltv : Nat)
    (h : (EstimateRoutingFee lnd invoice amount_msat log).1 = (fee, cltv, none)) :
    ∃ ch, chosen (candidates lnd invoice (getBlockHeight lnd log).1.1
            (resolvedAmount invoice amount_msat) (getBlockHeight lnd log).2) = some ch
      ∧ ch.1 = fee
      ∧ cltv = wrap64 ((ch.2 : Int) + invoice.CltvExpiry)
      ∧ (∀ f l, ch = directCandidate (getBlockHeight lnd log).1.1 f l →
          cltv = wrap64 ((l : Int) - (getBlockHeight lnd log).1.1 + invoice.CltvExpiry))
      ∧ (∀ f l hops,
          ch = hintCandidate (resolvedAmount invoice amount_msat)
                (getBlockHeight lnd log).1.1 f l hops →
          cltv = wrap64 ((l : Int) - (getBlockHeight lnd log).1.1
                  + ((hops.map HopHint.CltvExpiryDelta).sum : Nat) + invoice.CltvExpiry)) := by
  obtain ⟨d, hch, hc⟩ := success_chosen lnd invoice amount_msat log fee cltv h
  refine ⟨(fee, d), hch, rfl, hc, ?_, ?_⟩
  · intro f l hd
    have h2 : d = wrap64 ((l : Int) - (getBlockHeight lnd log).1.1) :=
      congrArg Prod.snd hd
    rw [hc, h2, wrap64_add]
  · intro f l hops hd
    have h2 : d = wrap64 ((l : Int) - (getBlockHeight lnd log).1.1
        + ((hops.map HopHint.CltvExpiryDelta).sum : Nat)) := congrArg Prod.snd hd
    rw [hc, h2, wrap64_add]

theorem EstimateRoutingFee_cltv_delta_witness :
    (EstimateRoutingFee (lndOf 800000 (.ok (50000, 800040) none) (.ok (49000, 800020) none))
        (invoiceOf 1000000 18 [⟨[hopOf 500 500 40]⟩]) 0 []).1 = (50000, 58, none)
    ∧ ∃ ch, chosen (candidates
          (lndOf 800000 (.ok (50000, 800040) none) (.ok (49000, 800020) none))
          (invoiceOf 1000000 18 [⟨[hopOf 500 500 40]⟩])
          (getBlockHeight
            (lndOf 800000 (.ok (50000, 800040) none) (.ok (49000, 800020) none)) []).1.1
          (resolvedAmount (invoiceOf 1000000 18 [⟨[hopOf 500 500 40]⟩]) 0)
          (getBlockHeight
            (lndOf 800000 (.ok (50000, 800040) none) (.ok (49000, 800020) none)) []).2)
        = some ch
      ∧ ch.1 = 50000
      ∧ 58 = wrap64 ((ch.2 : Int) + (invoiceOf 1000000 18 [⟨[hopOf 500 500 40]⟩]).CltvExpiry)
      ∧ (∀ f l, ch = directCandidate (getBlockHeight
            (lndOf 800000 (.ok (50000, 800040) none) (.ok (49000, 800020) none)) []).1.1 f l →
          58 = wrap64 ((l : Int) - (getBlockHeight
              (lndOf 800000 (.ok (50000, 800040) none) (.ok (49000, 800020) none)) []).1.1
            + (invoiceOf 1000000 18 [⟨[hopOf 500 500 40]⟩]).CltvExpiry))
      ∧ (∀ f l hops,
          ch = hintCandidate (resolvedAmount (invoiceOf 1000000 18 [⟨[hopOf 500 500 40]⟩]) 0)
                (getBlockHeight
                  (lndOf 800000 (.ok (50000, 800040) none) (.ok (49000, 800020) none))
                  []).1.1 f l hops →
          58 = wrap64 ((l : Int) - (getBlockHeight
              (lndOf 800000 (.ok (50000, 800040) none) (.ok (49000, 800020) none)) []).1.1
            + ((hops.map HopHint.CltvExpiryDelta).sum : Nat)
            + (invoiceOf 1000000 18 [⟨[hopOf 500 500 40]⟩]).CltvExpiry)) :=
  ⟨by decide,
    EstimateRoutingFee_cltv_delta _ (invoiceOf 1000000 18 [⟨[hopOf 500 500 40]⟩]) 0 []
      50000 58 (by decide)⟩

/-- C10, as the claim words it, fails: at block height 800000 the direct query
succeeds with the fee 18446744073709551615 and the time lock 800040, and the
call fails with "could not find route"; the same happens when the direct
query succeeds with the fee 1000 and the time lock 799999. -/
theorem EstimateRoutingFee_fails_with_candidate :
    ¬ ((invoiceOf 1000 18 []).NumMsat = 0 ∧ 0 = 0)
    ∧ getBlockHeight
        (lndOf 800000 (.ok (18446744073709551615, 800040) none) (.ok (1000, 800040) none)) []
      = ((800000, none), [Request.bestblock])
    ∧ (estimateRoutingFee
        (lndOf 800000 (.ok (18446744073709551615, 800040) none) (.ok (1000, 800040) none))
        [Request.bestblock] (invoiceOf 1000 18 []).Destination 1000).1
      = (18446744073709551615, 800040, none)
    ∧ (EstimateRoutingFee
        (lndOf 800000 (.ok (18446744073709551615, 800040) none) (.ok (1000, 800040) none))
        (invoiceOf 1000 18 []) 0 []).1
      = (0, 0, some (.joinError1 (errors.New 356 "could not find route")))
    ∧ getBlockHeight (lndOf 800000 (.ok (1000, 799999) none) (.ok (1000, 799999) none)) []
      = ((800000, none), [Request.bestblock])
    ∧ (estimateRoutingFee (lndOf 800000 (.ok (1000, 799999) none) (.ok (1000, 799999) none))
        [Request.bestblock] (invoiceOf 1000 18 []).Destination 1000).1 = (1000, 799999, none)
    ∧ (EstimateRoutingFee (lndOf 800000 (.ok (1000, 799999) none) (.ok (1000, 799999) none))
        (invoiceOf 1000 18 []) 0 []).1
      = (0, 0, some (.joinError1 (errors.New 356 "could not find route"))) := by
  refine ⟨by decide, by decide, by decide, by decide, by decide, by decide, by decide⟩

/-- C10 (amended): given a non-zero resolved amount and a successful
block-height query, the call fails if and only if no candidate exists (the
direct query failed and every route hint has zero hops or a failed first-hop
query) or the chosen candidate has `18446744073709551615` as its total fee or
as its relative delta; when it fails, the error joins the errors met with
"could not find route". -/
theorem EstimateRoutingFee_fails_iff (lnd : Lnd) (invoice : DecodedInvoice)
    (amount_msat : Nat) (log : List Request) (height : Nat) (log1 : List Request)
    (hamt : ¬ (invoice.NumMsat = 0 ∧ amount_msat = 0))
    (hH : getBlockHeight lnd log = ((height, none), log1)) :
    ((EstimateRoutingFee lnd invoice amount_msat log).1.2.2 ≠ none
      ↔ (candidates lnd invoice height (resolvedAmount invoice amount_msat) log1 = []
        ∨ ∃ ch, chosen (candidates lnd invoice height (resolvedAmount invoice amount_msat) log1)
              = some ch ∧ (ch.1 = MaxUint64 ∨ ch.2 = MaxUint64)))
    ∧ ((EstimateRoutingFee lnd invoice amount_msat log).1.2.2 ≠ none →
        ∃ errs, (EstimateRoutingFee lnd invoice amount_msat log).1
          = (0, 0, errors.Join errs (some (errors.New 356 "could not find route")))) := by
  rcases fails_iff lnd invoice amount_msat log height log1 hamt hH with ⟨h1, h2⟩ | ⟨h1, h2⟩
  · refine ⟨⟨fun _ => h2, fun _ => ?_⟩, fun _ => ⟨_, h1⟩⟩
    rw [h1]
    exact Join_some_ne_none _ _
  · refine ⟨⟨fun hc => absurd h1 hc, fun hc => absurd hc h2⟩, fun hc => absurd h1 hc⟩

theorem EstimateRoutingFee_fails_iff_witness :
    ¬ ((invoiceOf 1000000 18 [⟨[]⟩, ⟨[hopOf 500 500 40]⟩]).NumMsat = 0 ∧ 0 = 0)
    ∧ getBlockHeight
        (lndOf 800000 (.notOK "unable to find a path to destination" none)
          (.ok (49000, 800020) none)) []
      = ((800000, none), [Request.bestblock])
    ∧ (EstimateRoutingFee
        (lndOf 800000 (.notOK "unable to find a path to destination" none)
          (.ok (49000, 800020) none))
        (invoiceOf 1000000 18 [⟨[]⟩, ⟨[hopOf 500 500 40]⟩]) 0 []).1 = (50000, 78, none)
    ∧ (((EstimateRoutingFee
          (lndOf 800000 (.notOK "unable to find a path to destination" none)
            (.ok (49000, 800020) none))
          (invoiceOf 1000000 18 [⟨[]⟩, ⟨[hopOf 500 500 40]⟩]) 0 []).1.2.2 ≠ none
        ↔ (candidates
            (lndOf 800000 (.notOK "unable to find a path to destination" none)
              (.ok (49000, 800020) none))
            (invoiceOf 1000000 18 [⟨[]⟩, ⟨[hopOf 500 500 40]⟩]) 800000
            (resolvedAmount (invoiceOf 1000000 18 [⟨[]⟩, ⟨[hopOf 500 500 40]⟩]) 0)
            [Request.bestblock] = []
          ∨ ∃ ch, chosen (candidates
              (lndOf 800000 (.notOK "unable to find a path to destination" none)
                (.ok (49000, 800020) none))
              (invoiceOf 1000000 18 [⟨[]⟩, ⟨[hopOf 500 500 40]⟩]) 800000
              (resolvedAmount (invoiceOf 1000000 18 [⟨[]⟩, ⟨[hopOf 500 500 40]⟩]) 0)
              [Request.bestblock])
                = some ch ∧ (ch.1 = MaxUint64 ∨ ch.2 = MaxUint64)))
      ∧ ((EstimateRoutingFee
          (lndOf 800000 (.notOK "unable to find a path to destination" none)
            (.ok (49000, 800020) none))
          (invoiceOf 1000000 18 [⟨[]⟩, ⟨[hopOf 500 500 40]⟩]) 0 []).1.2.2 ≠ none →
          ∃ errs, (EstimateRoutingFee
              (lndOf 800000 (.notOK "unable to find a path to destination" none)
                (.ok (49000, 800020) none))
              (invoiceOf 1000000 18 [⟨[]⟩, ⟨[hopOf 500 500 40]⟩]) 0 []).1
            = (0, 0, errors.Join errs (some (errors.New 356 "could not find route"))))) :=
  ⟨by decide, by decide, by decide,
    EstimateRoutingFee_fails_iff _ (invoiceOf 1000000 18 [⟨[]⟩, ⟨[hopOf 500 500 40]⟩]) 0 []
      800000 [Request.bestblock] (by decide) (by decide)⟩

end lnc
